import Mathlib

/-!
Shallow embedding of `src/backend/booking/src/notify-booking/notify.py`.

The module defines two functions: `notify_booking`, which formats a subject
line and a booking-status attribute, publishes a message on an SNS topic and
wraps provider failures into `BookingNotificationException`; and
`lambda_handler`, which extracts `customerId`, `price` (under `payment`) and
`bookingReference` from the incoming event, validates, calls `notify_booking`
and returns the bare `notificationId` string.

Python values are modelled by `PyVal` (the shapes this handler touches:
`None`, booleans, strings, dicts).  The SNS client and the environment
variable `BOOKING_TOPIC` are modelled by an `Env` record whose `snsPublish`
field is an arbitrary response oracle; each embedded function returns, next
to its result, the list of publish calls it issued, so that theorems can
speak about exactly what was sent.  Exceptions are modelled with `Except`.
-/

/-- Python runtime values relevant to this handler: `None`, booleans,
strings and string-keyed dicts (first binding of a key wins, mirroring a
Python dict with unique keys). -/
inductive PyVal : Type
  | none
  | bool (b : Bool)
  | str (s : String)
  | dict (fields : List (String × PyVal))
  deriving Repr, Inhabited

/-- Python truthiness for the modelled value shapes: `None` and `False` are
falsy, a string is truthy iff nonempty, a dict is truthy iff nonempty. -/
def pyTruthy : PyVal → Bool
  | .none => false
  | .bool b => b
  | .str s => !s.isEmpty
  | .dict fs => !fs.isEmpty

mutual

/-- Python `repr` on the modelled values (string escaping elided: the
inputs this program handles contain no quotes or backslashes). -/
def pyRepr : PyVal → String
  | .none => "None"
  | .bool true => "True"
  | .bool false => "False"
  | .str s => "\x27" ++ s ++ "\x27"
  | .dict fs => "\x7b" ++ String.intercalate ", " (pyReprItems fs) ++ "\x7d"

/-- `repr` of the `key: value` items of a dict. -/
def pyReprItems : List (String × PyVal) → List String
  | [] => []
  | (k, v) :: rest =>
      ("\x27" ++ k ++ "\x27: " ++ pyRepr v) :: pyReprItems rest

end

/-- Python `str` (as used by an f-string): identity on strings, `repr`
otherwise. -/
def pyStr : PyVal → String
  | .str s => s
  | v => pyRepr v

mutual

/-- `json.dumps` on the modelled values, with the default separators
(string escaping elided as in `pyRepr`). -/
def jsonDumps : PyVal → String
  | .none => "null"
  | .bool true => "true"
  | .bool false => "false"
  | .str s => "\"" ++ s ++ "\""
  | .dict fs => "\x7b" ++ String.intercalate ", " (jsonItems fs) ++ "\x7d"

/-- JSON items of a dict. -/
def jsonItems : List (String × PyVal) → List String
  | [] => []
  | (k, v) :: rest => ("\"" ++ k ++ "\": " ++ jsonDumps v) :: jsonItems rest

end

/-- `d.get(key, default)` on a dict `d`. -/
def dictGet (fields : List (String × PyVal)) (key : String) (default : PyVal) :
    PyVal :=
  match fields with
  | [] => default
  | (k, v) :: rest => if k = key then v else dictGet rest key default

/-- Python type name, as it appears in an `AttributeError` message. -/
def pyTypeName : PyVal → String
  | .none => "NoneType"
  | .bool _ => "bool"
  | .str _ => "str"
  | .dict _ => "dict"

/-- `v.get(key, default)` on an arbitrary value `v`: succeeds only when `v`
is a dict; on any other value Python raises
`AttributeError: '<type>' object has no attribute 'get'`. -/
def pyGet (v : PyVal) (key : String) (default : PyVal) : Except String PyVal :=
  match v with
  | .dict fs => Except.ok (dictGet fs key default)
  | _ =>
      Except.error
        ("\x27" ++ pyTypeName v ++ "\x27 object has no attribute \x27get\x27")

/-- The provider response of a successful `sns.publish` (`ret["MessageId"]`). -/
structure SNSResponse where
  messageId : String
  deriving Repr, DecidableEq

/-- A `botocore` `ClientError`; `errorMessage` models
`e.response["Error"]["Message"]`. -/
structure ClientError where
  errorMessage : String
  deriving Repr, DecidableEq

/-- One SNS message attribute value (`DataType` / `StringValue`). -/
structure MessageAttributeValue where
  dataType : String
  stringValue : String
  deriving Repr, DecidableEq

/-- The arguments of one `sns.publish` call. -/
structure PublishCall where
  topicArn : Option String
  message : String
  subject : String
  messageAttributes : List (String × MessageAttributeValue)
  deriving Repr, DecidableEq

/-- The exception type raised by `notify_booking`; `message` models the
`str` rendering of the exception. -/
structure BookingNotificationException where
  message : String
  deriving Repr, DecidableEq

/-- The dict `notify_booking` returns on success. -/
structure NotifyResult where
  notificationId : String
  deriving Repr, DecidableEq

/-- The process environment: `booking_sns_topic = os.getenv("BOOKING_TOPIC")`
and the SNS client, modelled as an oracle from publish arguments to the
provider response. -/
structure Env where
  booking_sns_topic : Option String
  snsPublish : PublishCall → Except ClientError SNSResponse

/-- `notify_booking(payload, booking_reference)`: formats the subject and
the `Booking.Status` tag from `booking_reference`, publishes the
JSON-serialized payload once, returns `{"notificationId": message_id}` on
success and raises `BookingNotificationException(e.response["Error"]["Message"])`
on `ClientError`.  The first component of the result is the list of publish
calls issued (always exactly one).  The X-Ray subsegment and its
annotations are pure telemetry and are not modelled. -/
def notify_booking (env : Env) (payload : PyVal) (booking_reference : PyVal) :
    List PublishCall × Except BookingNotificationException NotifyResult :=
  let successful_subject := "Booking confirmation for " ++ pyStr booking_reference
  let unsuccessful_subject :=
    "Unable to process booking for " ++ pyStr booking_reference
  let subject :=
    if pyTruthy booking_reference then successful_subject else unsuccessful_subject
  let booking_status := if pyTruthy booking_reference then "confirmed" else "cancelled"
  let call : PublishCall :=
    { topicArn := env.booking_sns_topic
      message := jsonDumps payload
      subject := subject
      messageAttributes :=
        [("Booking.Status",
          { dataType := "String", stringValue := booking_status })] }
  let result : Except BookingNotificationException NotifyResult :=
    match env.snsPublish call with
    | Except.ok ret => Except.ok { notificationId := ret.messageId }
    | Except.error e => Except.error { message := e.errorMessage }
  ([call], result)

/-- The ways `lambda_handler` can fail: an `AttributeError` raised during
extraction, the `ValueError("Invalid customer and price")` of validation, or
the re-raised `BookingNotificationException`. -/
inductive HandlerError : Type
  | attributeError (msg : String)
  | valueError (msg : String)
  | bookingNotificationError (e : BookingNotificationException)
  deriving Repr, DecidableEq

/-- `lambda_handler(event, context)`: extracts
`customer_id = event.get("customerId", False)`,
`price = event.get("payment", False).get("price", False)` (note: when
`payment` is absent the inner `.get` is called on `False` and raises
`AttributeError`), `booking_reference = event.get("bookingReference", False)`;
raises `ValueError` when both `customer_id` and `price` are falsy; otherwise
calls `notify_booking` and returns `ret["notificationId"]`, re-raising any
`BookingNotificationException` as a new exception of the same kind (whose
`str` rendering equals that of the original, since Python renders a
single-argument exception as the `str` of its argument).  The first
component of the result is the list of publish calls issued. -/
def lambda_handler (env : Env) (event : List (String × PyVal)) :
    List PublishCall × Except HandlerError String :=
  let customer_id := dictGet event "customerId" (PyVal.bool false)
  match pyGet (dictGet event "payment" (PyVal.bool false)) "price" (PyVal.bool false) with
  | Except.error msg => ([], Except.error (HandlerError.attributeError msg))
  | Except.ok price =>
    let booking_reference := dictGet event "bookingReference" (PyVal.bool false)
    if !pyTruthy customer_id && !pyTruthy price then
      ([], Except.error (HandlerError.valueError "Invalid customer and price"))
    else
      let payload := PyVal.dict [("customerId", customer_id), ("price", price)]
      match notify_booking env payload booking_reference with
      | (calls, Except.ok ret) => (calls, Except.ok ret.notificationId)
      | (calls, Except.error e) =>
          (calls, Except.error (HandlerError.bookingNotificationError
            { message := e.message }))

/-- An environment whose publish call always succeeds with `MessageId`
`"msg-1"`. -/
def envOk : Env :=
  { booking_sns_topic := some "booking-topic"
    snsPublish := fun _ => Except.ok { messageId := "msg-1" } }

/-- An environment whose publish call always fails with provider message
`"Topic not found"`. -/
def envErr : Env :=
  { booking_sns_topic := some "booking-topic"
    snsPublish := fun _ => Except.error { errorMessage := "Topic not found" } }

instance {ε α : Type} [DecidableEq ε] [DecidableEq α] :
    DecidableEq (Except ε α) := fun x y =>
  match x, y with
  | Except.ok a, Except.ok b =>
      if h : a = b then isTrue (by rw [h])
      else isFalse (fun hc => by cases hc; exact h rfl)
  | Except.error a, Except.error b =>
      if h : a = b then isTrue (by rw [h])
      else isFalse (fun hc => by cases hc; exact h rfl)
  | Except.ok _, Except.error _ => isFalse (fun hc => by cases hc)
  | Except.error _, Except.ok _ => isFalse (fun hc => by cases hc)

/-- C7: for every truthy `bookingReference` `r`, `notify_booking` issues
exactly one publish call, whose subject is `"Booking confirmation for {r}"`
and whose `Booking.Status` attribute is the string `"confirmed"`. -/
theorem notify_booking_truthy_reference_call (env : Env) (p r : PyVal)
    (h : pyTruthy r = true) :
    (notify_booking env p r).1 =
      [{ topicArn := env.booking_sns_topic
         message := jsonDumps p
         subject := "Booking confirmation for " ++ pyStr r
         messageAttributes :=
           [("Booking.Status",
             { dataType := "String", stringValue := "confirmed" })] }] := by
  simp [notify_booking, h]

/-- C7 witness: with `bookingReference = "BK-9"` the single publish call has
subject `"Booking confirmation for BK-9"` and status `"confirmed"`. -/
theorem notify_booking_truthy_reference_call_witness :
    (notify_booking envOk (PyVal.dict []) (PyVal.str "BK-9")).1 =
      [{ topicArn := some "booking-topic"
         message := "\x7b\x7d"
         subject := "Booking confirmation for BK-9"
         messageAttributes :=
           [("Booking.Status",
             { dataType := "String", stringValue := "confirmed" })] }] :=
  notify_booking_truthy_reference_call envOk (PyVal.dict []) (PyVal.str "BK-9") rfl

/-- C3 counterexample: for the falsy reference `False` (the value
`event.get("bookingReference", False)` yields when the key is absent), the
published subject is `"Unable to process booking for False"`, not the
literal `"Unable to process booking for "` the claim asserts for every
falsy reference. -/
theorem notify_booking_false_reference_subject_not_empty :
    (notify_booking envOk (PyVal.dict []) (PyVal.bool false)).1.map
        PublishCall.subject = ["Unable to process booking for False"]
    ∧ (notify_booking envOk (PyVal.dict []) (PyVal.bool false)).1.map
        PublishCall.subject ≠ ["Unable to process booking for "] := by
  constructor
  · rfl
  · decide

/-- C3 amended: for every falsy `bookingReference` `r`, `notify_booking`
issues exactly one publish call, whose subject is
`"Unable to process booking for "` followed by the Python `str` rendering of
`r` (empty only when `r` is the empty string), and whose `Booking.Status`
attribute is the string `"cancelled"`. -/
theorem notify_booking_falsy_reference_call (env : Env) (p r : PyVal)
    (h : pyTruthy r = false) :
    (notify_booking env p r).1 =
      [{ topicArn := env.booking_sns_topic
         message := jsonDumps p
         subject := "Unable to process booking for " ++ pyStr r
         messageAttributes :=
           [("Booking.Status",
             { dataType := "String", stringValue := "cancelled" })] }] := by
  simp [notify_booking, h]

/-- C3 amended witness: with the empty-string reference the subject is
exactly `"Unable to process booking for "` and the status is `"cancelled"`. -/
theorem notify_booking_falsy_reference_call_witness :
    (notify_booking envOk (PyVal.dict []) (PyVal.str "")).1 =
      [{ topicArn := some "booking-topic"
         message := "\x7b\x7d"
         subject := "Unable to process booking for "
         messageAttributes :=
           [("Booking.Status",
             { dataType := "String", stringValue := "cancelled" })] }] :=
  notify_booking_falsy_reference_call envOk (PyVal.dict []) (PyVal.str "") rfl

/-- C4: `notify_booking` raises `BookingNotificationException` exactly when
the (single) publish call fails with a `ClientError`, and the exception
message is the provider error message verbatim; there is no retry and no
other error kind. -/
theorem notify_booking_error_characterization (env : Env) (p r : PyVal)
    (e : BookingNotificationException) :
    (notify_booking env p r).2 = Except.error e ↔
      ∃ c ce, (notify_booking env p r).1 = [c]
        ∧ env.snsPublish c = Except.error ce
        ∧ e.message = ce.errorMessage := by
  simp only [notify_booking]
  constructor
  · intro h2
    split at h2
    · cases h2
    · next ce hce =>
        cases h2
        exact ⟨_, ce, rfl, hce, rfl⟩
  · rintro ⟨c, ce, hc, hce, hmsg⟩
    simp only [List.cons.injEq, and_true] at hc
    subst hc
    rw [hce]
    obtain ⟨em⟩ := e
    simp_all

/-- C4 witness: a publish failure with provider message `"Topic not found"`
surfaces as a `BookingNotificationException` with message
`"Topic not found"`. -/
theorem notify_booking_error_characterization_witness :
    (notify_booking envErr (PyVal.dict []) (PyVal.str "BK-9")).2 =
      Except.error { message := "Topic not found" } :=
  (notify_booking_error_characterization envErr (PyVal.dict []) (PyVal.str "BK-9")
      { message := "Topic not found" }).mpr
    ⟨_, { errorMessage := "Topic not found" }, rfl, rfl, rfl⟩

/-- C5: `notify_booking` succeeds exactly when the (single) publish call
succeeds, and then returns `{notificationId := MessageId}` with the
`MessageId` of the provider response. -/
theorem notify_booking_success_characterization (env : Env) (p r : PyVal)
    (res : NotifyResult) :
    (notify_booking env p r).2 = Except.ok res ↔
      ∃ c resp, (notify_booking env p r).1 = [c]
        ∧ env.snsPublish c = Except.ok resp
        ∧ res = { notificationId := resp.messageId } := by
  simp only [notify_booking]
  constructor
  · intro h2
    split at h2
    · next resp hresp =>
        cases h2
        exact ⟨_, resp, rfl, hresp, rfl⟩
    · cases h2
  · rintro ⟨c, resp, hc, hresp, hres⟩
    simp only [List.cons.injEq, and_true] at hc
    subst hc
    rw [hresp, hres]

/-- C5 witness: a successful publish with `MessageId` `"msg-1"` yields
`{notificationId := "msg-1"}`. -/
theorem notify_booking_success_characterization_witness :
    (notify_booking envOk (PyVal.dict []) (PyVal.str "BK-9")).2 =
      Except.ok { notificationId := "msg-1" } :=
  (notify_booking_success_characterization envOk (PyVal.dict []) (PyVal.str "BK-9")
      { notificationId := "msg-1" }).mpr
    ⟨_, { messageId := "msg-1" }, rfl, rfl, rfl⟩

/-- C10: every publish call issued by `notify_booking` carries exactly one
message attribute, keyed `"Booking.Status"`, of `DataType` `"String"`,
whose value is `"confirmed"` or `"cancelled"`. -/
theorem notify_booking_attribute_invariant (env : Env) (p r : PyVal)
    (c : PublishCall) (h : c ∈ (notify_booking env p r).1) :
    ∃ v, c.messageAttributes =
        [("Booking.Status", { dataType := "String", stringValue := v })]
      ∧ (v = "confirmed" ∨ v = "cancelled") := by
  simp only [notify_booking, List.mem_singleton] at h
  subst h
  refine ⟨if pyTruthy r then "confirmed" else "cancelled", rfl, ?_⟩
  by_cases hr : pyTruthy r <;> simp [hr]

/-- C10 witness: the attribute of the call issued for reference `"BK-9"`. -/
theorem notify_booking_attribute_invariant_witness :
    ∃ v, PublishCall.messageAttributes
        { topicArn := some "booking-topic"
          message := "\x7b\x7d"
          subject := "Booking confirmation for BK-9"
          messageAttributes :=
            [("Booking.Status",
              { dataType := "String", stringValue := "confirmed" })] } =
        [("Booking.Status", { dataType := "String", stringValue := v })]
      ∧ (v = "confirmed" ∨ v = "cancelled") :=
  notify_booking_attribute_invariant envOk (PyVal.dict []) (PyVal.str "BK-9") _
    (List.mem_singleton.mpr rfl)

/-- C1 (failing input): on an event with a truthy `customerId` and no
`payment` key, `event.get("payment", False)` yields `False` and the chained
`.get("price", False)` raises `AttributeError`; the handler fails during
extraction, before validation, and issues no publish call — contrary to the
documented default-to-false-like extraction. -/
theorem lambda_handler_absent_payment_attributeError :
    lambda_handler envOk [("customerId", PyVal.str "cust-1")] =
      ([], Except.error (HandlerError.attributeError
        "\x27bool\x27 object has no attribute \x27get\x27")) := rfl

/-- C2 counterexample: on the empty event both `customerId` and `price` are
absent, yet the handler raises `AttributeError` during extraction, not the
claimed `ValueError`. -/
theorem lambda_handler_empty_event_attributeError_not_valueError :
    (lambda_handler envOk []).2 =
        Except.error (HandlerError.attributeError
          "\x27bool\x27 object has no attribute \x27get\x27")
      ∧ (lambda_handler envOk []).2 ≠
        Except.error (HandlerError.valueError "Invalid customer and price") := by
  constructor
  · rfl
  · decide

/-- C2 amended: for every event whose `payment` field is present and is a
dict, the handler raises `ValueError("Invalid customer and price")` exactly
when both `customerId` and `price` are falsy, and when at least one of the
two is truthy it proceeds to the publish step (exactly one publish call is
issued).  (When `payment` is absent or not a dict, extraction raises
`AttributeError` before the validation check.) -/
theorem lambda_handler_valueError_iff_both_falsy (env : Env)
    (event d : List (String × PyVal))
    (hp : dictGet event "payment" (PyVal.bool false) = PyVal.dict d) :
    ((lambda_handler env event).2 =
        Except.error (HandlerError.valueError "Invalid customer and price")
      ↔ (pyTruthy (dictGet event "customerId" (PyVal.bool false)) = false
         ∧ pyTruthy (dictGet d "price" (PyVal.bool false)) = false))
    ∧ ((pyTruthy (dictGet event "customerId" (PyVal.bool false)) = true
        ∨ pyTruthy (dictGet d "price" (PyVal.bool false)) = true) →
        (lambda_handler env event).1.length = 1) := by
  simp only [lambda_handler, hp, pyGet]
  rcases h1 : pyTruthy (dictGet event "customerId" (PyVal.bool false)) <;>
    rcases h2 : pyTruthy (dictGet d "price" (PyVal.bool false)) <;>
      simp [h1, h2, notify_booking] <;> split <;>
        (rename_i heq; rw [Prod.mk.injEq] at heq; rw [← heq.1]; simp)

/-- C2 amended witness: on the spec's test event (`customerId` and `price`
both `None`, `payment` present) the handler raises
`ValueError("Invalid customer and price")`. -/
theorem lambda_handler_valueError_iff_both_falsy_witness :
    (lambda_handler envOk
        [("customerId", PyVal.none),
         ("payment", PyVal.dict [("price", PyVal.none)]),
         ("bookingReference", PyVal.none)]).2 =
      Except.error (HandlerError.valueError "Invalid customer and price") :=
  ((lambda_handler_valueError_iff_both_falsy envOk
      [("customerId", PyVal.none),
       ("payment", PyVal.dict [("price", PyVal.none)]),
       ("bookingReference", PyVal.none)]
      [("price", PyVal.none)] rfl).1).mpr ⟨rfl, rfl⟩

/-- C6: for every event whose `payment` field is a dict and with at least
one of `customerId`, `price` truthy, when the publish call succeeds with
`MessageId` `mid`, the handler returns the bare string `mid` (the
`notificationId` scalar, not the result record). -/
theorem lambda_handler_returns_bare_notificationId (env : Env)
    (event d : List (String × PyVal)) (mid : String)
    (hp : dictGet event "payment" (PyVal.bool false) = PyVal.dict d)
    (hv : pyTruthy (dictGet event "customerId" (PyVal.bool false)) = true
        ∨ pyTruthy (dictGet d "price" (PyVal.bool false)) = true)
    (hs : ∀ c, env.snsPublish c = Except.ok { messageId := mid }) :
    (lambda_handler env event).2 = Except.ok mid := by
  simp only [lambda_handler, hp, pyGet]
  rcases hv with h | h <;> simp [h, notify_booking, hs]

/-- C6 witness: the spec's test event with a stubbed successful publish
returning `"msg-1"` makes the handler return the bare string `"msg-1"`. -/
theorem lambda_handler_returns_bare_notificationId_witness :
    (lambda_handler envOk
        [("customerId", PyVal.str "cust-1"),
         ("payment", PyVal.dict [("price", PyVal.str "100")]),
         ("bookingReference", PyVal.str "BK-9")]).2 = Except.ok "msg-1" :=
  lambda_handler_returns_bare_notificationId envOk
    [("customerId", PyVal.str "cust-1"),
     ("payment", PyVal.dict [("price", PyVal.str "100")]),
     ("bookingReference", PyVal.str "BK-9")]
    [("price", PyVal.str "100")] "msg-1" rfl (Or.inl rfl) (fun _ => rfl)

/-- C8: whenever the handler raises the invalid-input `ValueError`, no
publish call has been issued (the validation error precedes any external
call). -/
theorem lambda_handler_valueError_no_publish (env : Env)
    (event : List (String × PyVal)) (m : String)
    (h : (lambda_handler env event).2 =
      Except.error (HandlerError.valueError m)) :
    (lambda_handler env event).1 = [] := by
  simp only [lambda_handler] at h ⊢
  rcases hg : pyGet (dictGet event "payment" (PyVal.bool false)) "price"
      (PyVal.bool false) with msg | price
  · simp [hg]
  · simp only [hg] at h ⊢
    rcases h1 : pyTruthy (dictGet event "customerId" (PyVal.bool false)) <;>
      rcases h2 : pyTruthy price <;>
        simp [h1, h2, notify_booking] at h ⊢ <;> split at h <;> simp_all

/-- C8 witness: on an event with both `customerId` and `price` present but
falsy (so the handler raises the invalid-input `ValueError`), the list of
issued publish calls is empty. -/
theorem lambda_handler_valueError_no_publish_witness :
    (lambda_handler envOk
        [("customerId", PyVal.none),
         ("payment", PyVal.dict [("price", PyVal.none)])]).1 = [] :=
  lambda_handler_valueError_no_publish envOk
    [("customerId", PyVal.none),
     ("payment", PyVal.dict [("price", PyVal.none)])]
    "Invalid customer and price" rfl

/-- C9: whenever the inner `notify_booking` call raises a
`BookingNotificationException`, the handler raises an error of the same
kind to the caller (with the same `str` rendering), performing no recovery
and returning no value. -/
theorem lambda_handler_reraises_notification_error (env : Env)
    (event d : List (String × PyVal)) (e : BookingNotificationException)
    (hp : dictGet event "payment" (PyVal.bool false) = PyVal.dict d)
    (hv : pyTruthy (dictGet event "customerId" (PyVal.bool false)) = true
        ∨ pyTruthy (dictGet d "price" (PyVal.bool false)) = true)
    (hn : (notify_booking env
            (PyVal.dict
              [("customerId", dictGet event "customerId" (PyVal.bool false)),
               ("price", dictGet d "price" (PyVal.bool false))])
            (dictGet event "bookingReference" (PyVal.bool false))).2
          = Except.error e) :
    (lambda_handler env event).2 =
      Except.error (HandlerError.bookingNotificationError
        { message := e.message }) := by
  simp only [notify_booking] at hn
  simp only [lambda_handler, hp, pyGet]
  rcases hv with h | h <;> simp only [h, notify_booking] <;>
    simp only [Bool.not_true, Bool.not_false, Bool.false_and, Bool.and_false,
      Bool.true_and, Bool.and_true, if_neg, Bool.false_eq_true,
      not_false_eq_true, ite_false, ite_true] <;>
    split <;> simp_all

/-- C9 witness: with a publish stub failing with `"Topic not found"`, the
handler raises `BookingNotificationException` with that message. -/
theorem lambda_handler_reraises_notification_error_witness :
    (lambda_handler envErr
        [("customerId", PyVal.str "cust-1"),
         ("payment", PyVal.dict [("price", PyVal.str "100")]),
         ("bookingReference", PyVal.str "BK-9")]).2 =
      Except.error (HandlerError.bookingNotificationError
        { message := "Topic not found" }) :=
  lambda_handler_reraises_notification_error envErr
    [("customerId", PyVal.str "cust-1"),
     ("payment", PyVal.dict [("price", PyVal.str "100")]),
     ("bookingReference", PyVal.str "BK-9")]
    [("price", PyVal.str "100")] { message := "Topic not found" }
    rfl (Or.inl rfl) rfl
